import Mathlib

/-!
A shallow embedding of `rescue_bson.py`, a resilient BSON stream decoder
(Python 2), together with theorems about its behaviour.

Modelling conventions:
* The input buffer (`data`, a Python `str` of bytes) is a `List Nat`, each
  entry one byte value.
* Cursors are `Int` (Python integers): negative positions arise in the
  source when declared sizes read from the buffer are negative, and Python
  indexing/slicing with negative indices is modelled faithfully by
  `pyIndex` / `pySlice`.
* The global random source (`random.randint(0, 99999999)` drawn at the top
  of `_get_c_string`) is modelled as an explicit injected stream of
  naturals (`RandStream`): each `_get_c_string` call pops one element.
  The stream is threaded through every call, including failing ones, like
  Python's global random state.
* Python exceptions are modelled by `Except Err`; non-termination of a
  loop is modelled by a fuel parameter, with `none` meaning the fuel ran
  out (every terminating Python run corresponds to all sufficiently large
  fuels).
* Values whose internal structure no claim inspects are carried opaquely:
  a double is kept as its 8 raw little-endian bytes, a datetime as the
  signed 64-bit millisecond count read from the wire (the `tz_aware`
  flag only selects a formatting of that count and is dropped).  Failure
  modes internal to such values (e.g. `datetime` range overflow or
  `re.compile` rejecting a pattern) are not modelled; no theorem below
  depends on the success boundary of those two constructors.
* `as_class` defaults to a mapping; a document is modelled as an
  insertion-ordered association list with last-write-wins updates
  (`insertDoc`), matching `result[key] = value` on a mapping.
-/

namespace RescueBson

/-- A decoded Python unicode string, as its list of code points. -/
abbrev PyStr := List Nat

/-- The injected stream of results of `random.randint(0, 99999999)`. -/
abbrev RandStream := List Nat

/-- Pop one random draw off the stream (an empty stream keeps yielding 0;
no theorem depends on the drawn values themselves). -/
def randDraw (rs : RandStream) : Nat × RandStream := (rs.headD 0, rs.tail)

/-- The Python exceptions that can escape the decoder's functions. -/
inductive Err where
  /-- `InvalidBSON()` raised by `_get_int` when `struct.unpack` fails. -/
  | invalidBSONInt : Err
  /-- `InvalidBSON("objsize too large")` from `decode_all`. -/
  | invalidBSONObjsizeTooLarge : Err
  /-- `InvalidBSON("bad eoo")` from `decode_all`. -/
  | invalidBSONBadEoo : Err
  /-- `InvalidBSON("invalid binary (st 2) - lengths don't match!")`. -/
  | invalidBSONBinaryLengths : Err
  /-- `struct.error` escaping an uncaught `struct.unpack` on a short slice. -/
  | structError : Err
  /-- `ValueError` re-raised by `_get_c_string` when no NUL terminator exists. -/
  | valueError : Err
  /-- `IndexError` from indexing the buffer out of range. -/
  | indexError : Err
  /-- The bare `Exception("skipping bad element type ...")` raised by
  `_element_to_dict` on a type tag missing from `_element_getter`. -/
  | unknownTag : Err
  /-- `TypeError` from `_get_ref`'s two-argument call of the
  four-positional-argument `_get_oid`. -/
  | typeError : Err
  /-- `ValueError` from `uuid.UUID(bytes=...)` when the slice is not 16 bytes. -/
  | uuidError : Err
  /-- `InvalidId` from `ObjectId(...)` when the slice is not 12 bytes. -/
  | oidError : Err
  /-- `NameError` from `decode_all`'s broken handler, which mentions the
  undefined name `elements`. -/
  | nameError : Err
deriving DecidableEq, Repr

/-- A decoded BSON value (the tagged union of kinds the decoder produces). -/
inductive Value where
  /-- A double, kept as its 8 raw little-endian bytes. -/
  | float (bs : List Nat) : Value
  /-- A unicode string (also used for symbols). -/
  | str (s : PyStr) : Value
  /-- An embedded document. -/
  | doc (d : List (PyStr × Value)) : Value
  /-- An array, projected to an ordered sequence. -/
  | arr (l : List Value) : Value
  /-- An opaque binary payload with its subtype byte. -/
  | binary (subtype : Nat) (bs : List Nat) : Value
  /-- A UUID built from binary subtypes 3 / 4 (16 raw bytes). -/
  | uuid (bs : List Nat) : Value
  /-- An ObjectId (12 raw bytes). -/
  | oid (bs : List Nat) : Value
  /-- A boolean. -/
  | bool (b : Bool) : Value
  /-- A datetime, as the signed 64-bit milliseconds-since-epoch read. -/
  | date (ms : Int) : Value
  /-- `None` (used for both the null and the undefined wire tags). -/
  | null : Value
  /-- A compiled regular expression: pattern code points and engine flag bits. -/
  | regex (pattern : PyStr) (flags : Nat) : Value
  /-- Code, optionally with a closure scope document. -/
  | code (c : PyStr) (scope : Option (List (PyStr × Value))) : Value
  /-- A BSON timestamp `Timestamp(time, inc)`. -/
  | timestamp (time inc : Nat) : Value
  /-- An int32. -/
  | int32 (n : Int) : Value
  /-- An int64 (`long`). -/
  | int64 (n : Int) : Value
  /-- `MinKey()`. -/
  | minKey : Value
  /-- `MaxKey()`. -/
  | maxKey : Value

/-- A document: insertion-ordered key-to-value mapping. -/
abbrev Doc := List (PyStr × Value)

/-- The outcome of a call that may raise, plus the random stream after it:
Python's global RNG advances whether or not the call succeeds. -/
abbrev Res (α : Type) := Except Err α × RandStream

/-- A possibly non-terminating outcome: `none` means the fuel ran out. -/
abbrev PRes (α : Type) := Option (Res α)

/-- `result[key] = value` on an insertion-ordered mapping: replace in place
if the key is present, else append. -/
def insertDoc : Doc → PyStr → Value → Doc
  | [], k, v => [(k, v)]
  | (k', v') :: rest, k, v =>
    if k' = k then (k, v) :: rest else (k', v') :: insertDoc rest k v

/-- `obj[key]` lookup on a document (`none` models `KeyError`). -/
def lookupDoc : Doc → PyStr → Option Value
  | [], _ => none
  | (k, v) :: rest, key => if k = key then some v else lookupDoc rest key

/-- Clamp a Python index `i` to `[0, n]` the way slice bounds are resolved:
negative indices count from the end. -/
def pyBound (i : Int) (n : Nat) : Nat :=
  if i < 0 then (max (i + n) 0).toNat else min i.toNat n

/-- Python slice `data[lo:hi]`. -/
def pySlice (data : List Nat) (lo hi : Int) : List Nat :=
  let a := pyBound lo data.length
  let b := pyBound hi data.length
  (data.drop a).take (b - a)

/-- Python single-byte indexing `data[i]`: negative indices count from the
end, and `none` models `IndexError`. -/
def pyIndex (data : List Nat) (i : Int) : Option Nat :=
  if 0 ≤ i then data[i.toNat]?
  else if 0 ≤ i + data.length then data[(i + data.length).toNat]? else none

/-- Little-endian byte-list value. -/
def leVal : List Nat → Nat
  | [] => 0
  | b :: rest => b + 256 * leVal rest

/-- `struct.unpack("<i", bs)`: signed 32-bit little-endian (on a 4-byte slice). -/
def toI32 (bs : List Nat) : Int :=
  if leVal bs < 2147483648 then (leVal bs : Int) else (leVal bs : Int) - 4294967296

/-- `struct.unpack("<q", bs)`: signed 64-bit little-endian (on an 8-byte slice). -/
def toI64 (bs : List Nat) : Int :=
  if leVal bs < 9223372036854775808 then (leVal bs : Int)
  else (leVal bs : Int) - 18446744073709551616

/-- Is `b` a UTF-8 continuation byte? -/
def isCont (b : Nat) : Bool := decide (128 ≤ b ∧ b < 192)

/-- Strict UTF-8 decoding to code points, as Python 2's `unicode(s, "utf-8")`:
overlong encodings and out-of-range starters are rejected; surrogate code
points are accepted (as the Python 2 codec does). `none` models
`UnicodeDecodeError`. -/
def decodeUtf8 : List Nat → Option (List Nat)
  | [] => some []
  | b :: rest =>
    if b < 128 then Option.map (fun t => b :: t) (decodeUtf8 rest)
    else if b < 194 then none
    else if b < 224 then
      match rest with
      | c1 :: rest2 =>
        if isCont c1 then
          Option.map (fun t => ((b - 192) * 64 + (c1 - 128)) :: t) (decodeUtf8 rest2)
        else none
      | [] => none
    else if b < 240 then
      match rest with
      | c1 :: c2 :: rest2 =>
        if isCont c1 && isCont c2 && (decide (160 ≤ c1) || decide (225 ≤ b)) then
          Option.map
            (fun t => ((b - 224) * 4096 + (c1 - 128) * 64 + (c2 - 128)) :: t)
            (decodeUtf8 rest2)
        else none
      | _ => none
    else if b < 245 then
      match rest with
      | c1 :: c2 :: c3 :: rest2 =>
        if isCont c1 && isCont c2 && isCont c3 &&
            (decide (144 ≤ c1) || decide (241 ≤ b)) &&
            (decide (c1 < 144) || decide (b < 244)) then
          Option.map
            (fun t =>
              ((b - 240) * 262144 + (c1 - 128) * 4096 + (c2 - 128) * 64 + (c3 - 128)) :: t)
            (decodeUtf8 rest2)
        else none
      | _ => none
    else none

/-- `data.index("\x00", position)`: index of the first NUL at or after the
(Python-resolved) start, `none` modelling `ValueError`. -/
def findNul (data : List Nat) (pos : Int) : Option Nat :=
  let lo := pyBound pos data.length
  Option.map (fun k => k + lo) (List.findIdx? (fun b => b == 0) (data.drop lo))

/-- Little-endian decimal digits of `n` (the first argument is fuel; `n`
itself is always enough, since each step divides by 10). -/
def decDigitsGo : Nat → Nat → List Nat
  | 0, _ => []
  | fuel + 1, n => if n = 0 then [] else (n % 10) :: decDigitsGo fuel (n / 10)

/-- `str(n)` for a natural number, as code points. -/
def decStr (n : Nat) : PyStr :=
  if n = 0 then [48] else ((decDigitsGo n n).reverse.map (fun d => d + 48))

/-- The synthesized placeholder `"UNKNOWN" + str(r)` built by `_get_c_string`. -/
def fakeKey (r : Nat) : PyStr := [85, 78, 75, 78, 79, 87, 78] ++ decStr r

/-- `_use_uuid`: the `uuid` module imports successfully. -/
def useUuid : Bool := true

/-- `_get_int(data, position, ..., unsigned)`: 4-byte little-endian integer;
a short slice raises `InvalidBSON()` (the caught `struct.error`). -/
def get_int (unsigned : Bool) (data : List Nat) (pos : Int) : Except Err (Int × Int) :=
  let bs := pySlice data pos (pos + 4)
  if bs.length = 4 then
    .ok (if unsigned then (leVal bs : Int) else toI32 bs, pos + 4)
  else .error .invalidBSONInt

/-- `_get_c_string(data, position, length)`.  A fresh random draw happens on
every call (the `fake_key`); with `length = none` the NUL terminator is
searched for and a miss re-raises `ValueError`; a byte span that fails
UTF-8 decoding is replaced by the placeholder instead of raising. -/
def get_c_string (data : List Nat) (pos : Int) (length : Option Int)
    (rs : RandStream) : Res (PyStr × Int) :=
  let (r, rs1) := randDraw rs
  let fake := fakeKey r
  match length with
  | none =>
    match findNul data pos with
    | none => (.error .valueError, rs1)
    | some e =>
      let value := (decodeUtf8 (pySlice data pos e)).getD fake
      (.ok (value, (e : Int) + 1), rs1)
  | some len =>
    let e := pos + len
    let value := (decodeUtf8 (pySlice data pos e)).getD fake
    (.ok (value, e + 1), rs1)

/-- `_get_number`: 8-byte little-endian double, kept as raw bytes; a short
slice raises `struct.error`. -/
def get_number (data : List Nat) (pos : Int) : Except Err (Value × Int) :=
  let bs := pySlice data pos (pos + 8)
  if bs.length = 8 then .ok (.float bs, pos + 8) else .error .structError

/-- `_get_string`: 32-bit length prefix, then `_get_c_string` with
`length - 1`; a short length slice raises `struct.error` uncaught. -/
def get_string (data : List Nat) (pos : Int) (rs : RandStream) : Res (PyStr × Int) :=
  let bs := pySlice data pos (pos + 4)
  if bs.length = 4 then get_c_string data (pos + 4) (some (toI32 bs - 1)) rs
  else (.error .structError, rs)

/-- `_get_oid`: 12 bytes; `ObjectId` raises unless exactly 12 bytes remain. -/
def get_oid (data : List Nat) (pos : Int) : Except Err (Value × Int) :=
  let bs := pySlice data pos (pos + 12)
  if bs.length = 12 then .ok (.oid bs, pos + 12) else .error .oidError

/-- `_get_boolean`: `data[position] == "\x01"` — exactly the byte 0x01 maps
to `True`; every other byte maps to `False`; a missing byte raises
`IndexError`. -/
def get_boolean (data : List Nat) (pos : Int) : Except Err (Value × Int) :=
  match pyIndex data pos with
  | none => .error .indexError
  | some b => .ok (.bool (b == 1), pos + 1)

/-- `_get_date`: signed 64-bit milliseconds; the datetime conversion and the
`tz_aware` formatting choice are dropped (kept as the raw count). -/
def get_date (data : List Nat) (pos : Int) : Except Err (Value × Int) :=
  let bs := pySlice data pos (pos + 8)
  if bs.length = 8 then .ok (.date (toI64 bs), pos + 8) else .error .structError

/-- `_get_long`: signed 64-bit little-endian integer. -/
def get_long (data : List Nat) (pos : Int) : Except Err (Value × Int) :=
  let bs := pySlice data pos (pos + 8)
  if bs.length = 8 then .ok (.int64 (toI64 bs), pos + 8) else .error .structError

/-- `_get_timestamp`: two unsigned 32-bit reads, `Timestamp(timestamp, inc)`. -/
def get_timestamp (data : List Nat) (pos : Int) : Except Err (Value × Int) :=
  match get_int true data pos with
  | .error e => .error e
  | .ok (inc, p1) =>
    match get_int true data p1 with
    | .error e => .error e
    | .ok (ts, p2) => .ok (.timestamp ts.toNat inc.toNat, p2)

/-- `_get_null` (also used for the undefined tag): returns `None`, cursor
unchanged. -/
def get_null (_data : List Nat) (pos : Int) : Except Err (Value × Int) :=
  .ok (.null, pos)

/-- `_get_binary`: 32-bit length, subtype byte; subtype 2 re-reads an inner
length that must be `length - 4`; subtypes 3/4 build a UUID from exactly
16 bytes; everything else is an opaque `Binary`. -/
def get_binary (data : List Nat) (pos : Int) : Except Err (Value × Int) :=
  match get_int false data pos with
  | .error e => .error e
  | .ok (length, p1) =>
    match pyIndex data p1 with
    | none => .error .indexError
    | some subtype =>
      let p2 := p1 + 1
      let step2 : Except Err (Int × Int) :=
        if subtype = 2 then
          match get_int false data p2 with
          | .error e => .error e
          | .ok (length2, p3) =>
            if length2 ≠ length - 4 then .error .invalidBSONBinaryLengths
            else .ok (length2, p3)
        else .ok (length, p2)
      match step2 with
      | .error e => .error e
      | .ok (len2, p3) =>
        if (subtype = 3 ∨ subtype = 4) ∧ useUuid then
          let bs := pySlice data p3 (p3 + len2)
          if bs.length = 16 then .ok (.uuid bs, p3 + len2) else .error .uuidError
        else .ok (.binary subtype (pySlice data p3 (p3 + len2)), p3 + len2)

/-- The `re` module flag constants used by `_get_regex`. -/
def reFlagBit (c : Nat) : Nat :=
  if c = 105 then 2 else if c = 108 then 4 else if c = 109 then 8
  else if c = 115 then 16 else if c = 117 then 32 else if c = 120 then 64 else 0

/-- Accumulate the engine flag bits for the recognized flag letters
`i l m s u x` appearing in the decoded flags string. -/
def regexFlags (flagsStr : PyStr) : Nat :=
  (if 105 ∈ flagsStr then 2 else 0) + (if 108 ∈ flagsStr then 4 else 0) +
  (if 109 ∈ flagsStr then 8 else 0) + (if 115 ∈ flagsStr then 16 else 0) +
  (if 117 ∈ flagsStr then 32 else 0) + (if 120 ∈ flagsStr then 64 else 0)

/-- `_get_regex`: two NUL-terminated strings (pattern, flag letters); the
compiled value keeps the pattern and the flag bits (`re.compile`'s own
syntax checking is not modelled; no theorem depends on it). -/
def get_regex (data : List Nat) (pos : Int) (rs : RandStream) : Res (Value × Int) :=
  match get_c_string data pos none rs with
  | (.error e, rs1) => (.error e, rs1)
  | (.ok (pattern, p1), rs1) =>
    match get_c_string data p1 none rs1 with
    | (.error e, rs2) => (.error e, rs2)
    | (.ok (flagsStr, p2), rs2) => (.ok (.regex pattern (regexFlags flagsStr), p2), rs2)

/-- `_get_ref`: skips 4 bytes, reads the collection name, then calls
`_get_oid(data, position)` with two arguments — a `TypeError`, since
`_get_oid` declares four positional parameters without defaults. -/
def get_ref (data : List Nat) (pos : Int) (rs : RandStream) : Res (Value × Int) :=
  match get_c_string data (pos + 4) none rs with
  | (.error e, rs1) => (.error e, rs1)
  | (.ok _, rs1) => (.error .typeError, rs1)

/-- `_get_code`: a string value wrapped in `Code`. -/
def get_code (data : List Nat) (pos : Int) (rs : RandStream) : Res (Value × Int) :=
  match get_string data pos rs with
  | (.error e, rs1) => (.error e, rs1)
  | (.ok (c, p1), rs1) => (.ok (.code c none, p1), rs1)

/-- The keys of the `_element_getter` dispatch table: tags 0x01..0x12 plus
0xFF (min key) and 0x7F (max key). -/
def knownTag (tag : Nat) : Bool :=
  decide ((1 ≤ tag ∧ tag ≤ 18) ∨ tag = 255 ∨ tag = 127)

/-- The `while True` projection loop of `_get_array`: append `obj[str(i)]`
for `i = 0, 1, 2, ...` until the first `KeyError`. -/
def array_project_go (d : Doc) : Nat → Nat → Option (List Value)
  | 0, _ => none
  | fuel + 1, i =>
    match lookupDoc d (decStr i) with
    | none => some []
    | some v => Option.map (fun t => v :: t) (array_project_go d fuel (i + 1))

mutual

/-- `_element_getter[element_type](data, position, as_class, tz_aware)`:
dispatch a known type tag to its value decoder.  The final arm is
unreachable from `_element_to_dict`, which tests membership first. -/
def element_getter : Nat → Nat → List Nat → Int → RandStream → PRes (Value × Int)
  | 0, _, _, _, _ => none
  | fuel + 1, tag, data, pos, rs =>
    match tag with
    | 1 => some (Except.map (fun p => p) (get_number data pos), rs)
    | 2 => some (Except.map (fun p => (Value.str p.1, p.2)) (get_string data pos rs).1,
                 (get_string data pos rs).2)
    | 3 =>
      match get_object fuel data pos rs with
      | none => none
      | some (.error e, rs1) => some (.error e, rs1)
      | some (.ok (d, p1), rs1) => some (.ok (.doc d, p1), rs1)
    | 4 => get_array fuel data pos rs
    | 5 => some (get_binary data pos, rs)
    | 6 => some (get_null data pos, rs)
    | 7 => some (get_oid data pos, rs)
    | 8 => some (get_boolean data pos, rs)
    | 9 => some (get_date data pos, rs)
    | 10 => some (get_null data pos, rs)
    | 11 => some (get_regex data pos rs)
    | 12 => some (get_ref data pos rs)
    | 13 => some (get_code data pos rs)
    | 14 => some (Except.map (fun p => (Value.str p.1, p.2)) (get_string data pos rs).1,
                  (get_string data pos rs).2)
    | 15 => get_code_w_scope fuel data pos rs
    | 16 => some (Except.map (fun p => (Value.int32 p.1, p.2)) (get_int false data pos), rs)
    | 17 => some (get_timestamp data pos, rs)
    | 18 => some (get_long data pos, rs)
    | 255 => some (.ok (.minKey, pos), rs)
    | 127 => some (.ok (.maxKey, pos), rs)
    | _ => some (.error .unknownTag, rs)

/-- `_get_object`: read a signed 32-bit size, parse the contained elements
over `[position+4, position+size-1)`, and advance the cursor by the full
declared size regardless of the inner outcome. -/
def get_object : Nat → List Nat → Int → RandStream → PRes (Doc × Int)
  | 0, _, _, _ => none
  | fuel + 1, data, pos, rs =>
    let bs := pySlice data pos (pos + 4)
    if bs.length = 4 then
      let objSize := toI32 bs
      match elements_to_dict_go fuel data (pos + 4) (pos + objSize - 1) [] rs with
      | none => none
      | some (.error e, rs1) => some (.error e, rs1)
      | some (.ok d, rs1) => some (.ok (d, pos + objSize), rs1)
    else some (.error .structError, rs)

/-- `_get_array`: decode an embedded document, then project it to a list by
sequential integer-key lookup until the first `KeyError`. -/
def get_array : Nat → List Nat → Int → RandStream → PRes (Value × Int)
  | 0, _, _, _ => none
  | fuel + 1, data, pos, rs =>
    match get_object fuel data pos rs with
    | none => none
    | some (.error e, rs1) => some (.error e, rs1)
    | some (.ok (d, p1), rs1) =>
      match array_project_go d fuel 0 with
      | none => none
      | some l => some (.ok (.arr l, p1), rs1)

/-- `_get_code_w_scope`: a 32-bit total size (read and discarded), a string,
then an embedded scope document. -/
def get_code_w_scope : Nat → List Nat → Int → RandStream → PRes (Value × Int)
  | 0, _, _, _ => none
  | fuel + 1, data, pos, rs =>
    match get_int false data pos with
    | .error e => some (.error e, rs)
    | .ok (_, p1) =>
      match get_string data p1 rs with
      | (.error e, rs1) => some (.error e, rs1)
      | (.ok (c, p2), rs1) =>
        match get_object fuel data p2 rs1 with
        | none => none
        | some (.error e, rs2) => some (.error e, rs2)
        | some (.ok (scope, p3), rs2) => some (.ok (.code c (some scope), p3), rs2)

/-- `_element_to_dict`: read the type tag byte, the NUL-terminated element
name, check the tag against the dispatch table (raising on an unknown
tag), then decode the value. -/
def element_to_dict : Nat → List Nat → Int → RandStream → PRes (PyStr × Value × Int)
  | 0, _, _, _ => none
  | fuel + 1, data, pos, rs =>
    match pyIndex data pos with
    | none => some (.error .indexError, rs)
    | some tag =>
      match get_c_string data (pos + 1) none rs with
      | (.error e, rs1) => some (.error e, rs1)
      | (.ok (name, p2), rs1) =>
        if knownTag tag then
          match element_getter fuel tag data p2 rs1 with
          | none => none
          | some (.error e, rs2) => some (.error e, rs2)
          | some (.ok (v, p3), rs2) => some (.ok (name, v, p3), rs2)
        else some (.error .unknownTag, rs1)

/-- The element loop of `_elements_to_dict`: while the position is before
`stop`, parse one element and insert it; any exception from the element
parse is caught and the mapping accumulated so far is returned. -/
def elements_to_dict_go : Nat → List Nat → Int → Int → Doc → RandStream → PRes Doc
  | 0, _, _, _, _, _ => none
  | fuel + 1, data, pos, stop, acc, rs =>
    if pos < stop then
      match element_to_dict fuel data pos rs with
      | none => none
      | some (.error _, rs1) => some (.ok acc, rs1)
      | some (.ok (k, v, p1), rs1) =>
        elements_to_dict_go fuel data p1 stop (insertDoc acc k v) rs1
    else some (.ok acc, rs)

end

/-- `_elements_to_dict(data, position, end, as_class, tz_aware)`: run the
element loop starting from an empty mapping. -/
def elements_to_dict (fuel : Nat) (data : List Nat) (pos stop : Int)
    (rs : RandStream) : PRes Doc :=
  elements_to_dict_go fuel data pos stop [] rs

/-- The top-level loop of `decode_all`.  Framing is validated (size not past
the end of the buffer, terminator byte 0x00), the document is parsed and
printed — but never appended to `docs`, which is returned unchanged; an
exception from `_elements_to_dict` (which cannot happen) would hit the
broken handler that references the undefined name `elements`. -/
def decode_all_go : Nat → List Nat → Int → List Doc → RandStream →
    Option (Except Err (List Doc) × RandStream)
  | 0, _, _, _, _ => none
  | fuel + 1, data, pos, docs, rs =>
    if pos < (data.length : Int) - 1 then
      let bs := pySlice data pos (pos + 4)
      if bs.length = 4 then
        let objSize := toI32 bs
        if (data.length : Int) - pos < objSize then
          some (.error .invalidBSONObjsizeTooLarge, rs)
        else
          match pyIndex data (pos + objSize - 1) with
          | none => some (.error .indexError, rs)
          | some b =>
            if b ≠ 0 then some (.error .invalidBSONBadEoo, rs)
            else
              match elements_to_dict_go fuel data (pos + 4) (pos + objSize - 1) [] rs with
              | none => none
              | some (.error _, rs1) => some (.error .nameError, rs1)
              | some (.ok _, rs1) => decode_all_go fuel data (pos + objSize) docs rs1
      else some (.error .structError, rs)
    else some (.ok docs, rs)

/-- `decode_all(data, as_class, tz_aware)`: walk the whole buffer and return
the `docs` accumulator (which no code path ever extends). -/
def decode_all (fuel : Nat) (data : List Nat) (rs : RandStream) :
    Option (Except Err (List Doc) × RandStream) :=
  decode_all_go fuel data 0 [] rs

/-- The declared 32-bit size read at a cursor (the `struct.unpack("<i", ...)`
of the 4 bytes at the cursor). -/
def readSize (data : List Nat) (pos : Int) : Int := toI32 (pySlice data pos (pos + 4))

/-- `_elements_to_dict` never finishes on this range of this buffer, no
matter how much fuel it is given. -/
def elementsRunForever (data : List Nat) (pos stop : Int) : Prop :=
  ∀ fuel rs, elements_to_dict fuel data pos stop rs = none

/-- `decode_all` never finishes on this buffer, no matter how much fuel it
is given. -/
def decodeAllRunsForever (data : List Nat) : Prop :=
  ∀ fuel rs, decode_all fuel data rs = none

/-- A single well-formed empty document: declared size 5, no elements, a
0x00 terminator. -/
def bufEmptyDoc : List Nat := [5, 0, 0, 0, 0]

/-- A well-formed empty document followed by a frame whose declared size 9
exceeds the 5 remaining bytes. -/
def bufFraming : List Nat := [5, 0, 0, 0, 0, 9, 0, 0, 0, 0]

/-- A document frame whose declared size is in bounds but whose final byte
is 1, not the 0x00 terminator. -/
def bufBadEoo : List Nat := [5, 0, 0, 0, 1]

/-- A well-framed document whose single element has tag 0x03 (embedded
document), an empty name, and declared inner size -2: the element parse
succeeds but returns the cursor to the element's own start, so the element
loop repeats forever. -/
def bufLoop : List Nat := [11, 0, 0, 0, 3, 0, 254, 255, 255, 255, 0]

/-- A document frame whose element names a NUL-terminated string that never
terminates before the end of the buffer. -/
def bufUnterminatedName : List Nat := [9, 0, 0, 0, 16, 65, 65, 65, 65]

/-- A three-key document `a, b, c` of int32 values whose second element
carries the unrecognized type tag 0x20. -/
def bufUnknownTag : List Nat :=
  [26, 0, 0, 0] ++ [16, 97, 0, 1, 0, 0, 0] ++ [32, 98, 0, 2, 0, 0, 0] ++
  [16, 99, 0, 3, 0, 0, 0] ++ [0]

/-- An array document with keys "0", "1", "2", "4" (a gap at 3) over int32
values 10, 11, 12, 13. -/
def bufArrayGap : List Nat :=
  [33, 0, 0, 0] ++ [16, 48, 0, 10, 0, 0, 0] ++ [16, 49, 0, 11, 0, 0, 0] ++
  [16, 50, 0, 12, 0, 0, 0] ++ [16, 52, 0, 13, 0, 0, 0] ++ [0]

/-- A document frame whose single embedded-document element stops early on
a corrupt (unknown-tag) inner element. -/
def bufTruncatedInner : List Nat := [8, 0, 0, 0, 32, 0, 1, 0]

/-- The element loop never produces an escaping exception: every failure of
`_element_to_dict` is caught and turned into the mapping accumulated so
far. -/
theorem elements_go_ne_error :
    ∀ (fuel : Nat) (data : List Nat) (pos stop : Int) (acc : Doc)
      (rs : RandStream) (e : Err) (rs' : RandStream),
      elements_to_dict_go fuel data pos stop acc rs ≠ some (.error e, rs') := by
  intro fuel
  induction fuel with
  | zero =>
    intro data pos stop acc rs e rs' h
    simp [elements_to_dict_go] at h
  | succ f ih =>
    intro data pos stop acc rs e rs' h
    simp only [elements_to_dict_go] at h
    split at h
    · split at h
      · exact Option.noConfusion h
      · simp at h
      · exact ih _ _ _ _ _ _ _ h
    · simp at h

/-- On `bufLoop`, the element at position 4 always parses successfully and
returns the cursor to position 4, so the element loop never finishes. -/
theorem elements_go_loops :
    ∀ (fuel : Nat) (acc : Doc) (rs : RandStream),
      elements_to_dict_go fuel bufLoop 4 10 acc rs = none := by
  intro fuel
  induction fuel with
  | zero => intro acc rs; rfl
  | succ f ih =>
    intro acc rs
    obtain _ | _ | _ | _ | g := f
    · rfl
    · rfl
    · rfl
    · rfl
    · have step : elements_to_dict_go (g + 4 + 1) bufLoop 4 10 acc rs =
          elements_to_dict_go (g + 4) bufLoop 4 10 (insertDoc acc [] (Value.doc []))
            rs.tail := rfl
      rw [step]
      exact ih _ _

/-- On `bufLoop` the stream loop's only iteration delegates to an element
loop that never finishes, so `decode_all` never finishes. -/
theorem decode_go_loops :
    ∀ (fuel : Nat) (docs : List Doc) (rs : RandStream),
      decode_all_go fuel bufLoop 0 docs rs = none := by
  intro fuel docs rs
  cases fuel with
  | zero => rfl
  | succ f =>
    have h := elements_go_loops f [] rs
    calc decode_all_go (f + 1) bufLoop 0 docs rs
        = (fun res => match res with
            | none => none
            | some (Except.error _, rs1) => some (Except.error Err.nameError, rs1)
            | some (Except.ok _, rs1) => decode_all_go f bufLoop (0 + 11) docs rs1)
            (elements_to_dict_go f bufLoop 4 10 [] rs) := rfl
    _ = none := by rw [h]

/-- Claim C1: `decode_all` is supposed to return one mapping per top-level
document, but the `docs` accumulator is never appended to: on a buffer
holding one well-formed empty document — whose body the document parser
does turn into a mapping, as the second conjunct shows — the returned
sequence is empty instead of a one-element sequence. -/
theorem c1_decode_all_drops_documents :
    decode_all 3 bufEmptyDoc [] = some (.ok [], []) ∧
    elements_to_dict 2 bufEmptyDoc 4 4 [] = some (.ok [], []) :=
  ⟨rfl, rfl⟩

/-- Claim C2 (amended): whenever the document parser terminates it returns a
mapping and never lets an element failure escape — on the first element
failure it returns exactly the mapping accumulated so far, on a success it
inserts and continues, and at the range end it returns the accumulation —
but element successes that do not advance the cursor can keep it from
terminating at all (see the counterexample). -/
theorem c2_elements_recovery :
    (∀ (fuel : Nat) (data : List Nat) (pos stop : Int) (acc : Doc)
        (rs : RandStream) (e : Err) (rs' : RandStream),
        elements_to_dict_go fuel data pos stop acc rs ≠ some (.error e, rs')) ∧
    (∀ (fuel : Nat) (data : List Nat) (pos stop : Int) (acc : Doc)
        (rs rs' : RandStream) (e : Err), pos < stop →
        element_to_dict fuel data pos rs = some (.error e, rs') →
        elements_to_dict_go (fuel + 1) data pos stop acc rs = some (.ok acc, rs')) ∧
    (∀ (fuel : Nat) (data : List Nat) (pos stop : Int) (acc : Doc)
        (rs rs' : RandStream) (k : PyStr) (v : Value) (p' : Int), pos < stop →
        element_to_dict fuel data pos rs = some (.ok (k, v, p'), rs') →
        elements_to_dict_go (fuel + 1) data pos stop acc rs =
          elements_to_dict_go fuel data p' stop (insertDoc acc k v) rs') ∧
    (∀ (fuel : Nat) (data : List Nat) (pos stop : Int) (acc : Doc)
        (rs : RandStream), ¬ pos < stop →
        elements_to_dict_go (fuel + 1) data pos stop acc rs = some (.ok acc, rs)) := by
  refine ⟨elements_go_ne_error, ?_, ?_, ?_⟩
  · intro fuel data pos stop acc rs rs' e hlt helt
    simp only [elements_to_dict_go]
    rw [if_pos hlt, helt]
  · intro fuel data pos stop acc rs rs' k v p' hlt helt
    simp only [elements_to_dict_go]
    rw [if_pos hlt, helt]
  · intro fuel data pos stop acc rs hlt
    simp only [elements_to_dict_go]
    rw [if_neg hlt]

/-- Witness for C2: a document range whose first element has an
unterminated name fails that element, and the loop returns the (empty)
mapping accumulated before it. -/
theorem c2_witness :
    elements_to_dict_go 2 bufUnterminatedName 4 8 [] [7] = some (.ok [], []) :=
  c2_elements_recovery.2.1 1 bufUnterminatedName 4 8 [] [7] [] .valueError
    (by decide) rfl

/-- Counterexample to C2 as stated: on `bufLoop`'s element range the parser
never returns a mapping at all — every element parse succeeds without
advancing the cursor, so the loop runs forever. -/
theorem c2_counterexample : elementsRunForever bufLoop 4 10 := fun fuel rs =>
  elements_go_loops fuel [] rs

/-- Claim C3: on a framing violation `decode_all` raises a distinct
`InvalidBSON` ("objsize too large" when the declared size exceeds the
remaining bytes, "bad eoo" when the terminator byte is wrong) — but the
caller then receives only the exception, not the documents recovered
before the bad position (the third conjunct shows the first document's
body had been recovered), and the `docs` list was empty anyway (C1). -/
theorem c3_framing_abort :
    decode_all 4 bufFraming [] = some (.error .invalidBSONObjsizeTooLarge, []) ∧
    decode_all 1 bufBadEoo [] = some (.error .invalidBSONBadEoo, []) ∧
    elements_to_dict 2 bufFraming 4 4 [] = some (.ok [], []) :=
  ⟨rfl, rfl, rfl⟩

/-- Claim C4: whenever `_get_object` returns, the outer cursor it returns is
the input cursor plus the declared 32-bit size read at the cursor, however
much of the inner content was actually consumed. -/
theorem c4_get_object_advance :
    ∀ (fuel : Nat) (data : List Nat) (pos : Int) (rs : RandStream) (d : Doc)
      (p' : Int) (rs' : RandStream),
      get_object fuel data pos rs = some (.ok (d, p'), rs') →
      p' = pos + readSize data pos := by
  intro fuel data pos rs d p' rs' h
  cases fuel with
  | zero => simp [get_object] at h
  | succ f =>
    simp only [get_object] at h
    split at h
    · split at h
      · exact Option.noConfusion h
      · simp at h
      · simp only [Option.some.injEq, Prod.mk.injEq, Except.ok.injEq] at h
        obtain ⟨⟨-, hp⟩, -⟩ := h
        exact hp.symm ▸ rfl
    · simp at h

/-- Witness for C4: a document whose single inner element is corrupt (its
tag 0x20 is unknown) still advances the outer cursor by the full declared
size 8. -/
theorem c4_witness : (8 : Int) = 0 + readSize bufTruncatedInner 0 :=
  c4_get_object_advance 4 bufTruncatedInner 0 [0] [] 8 [] rfl

/-- Claim C5 (amended): a NUL-terminated read whose byte span is not valid
UTF-8 yields the placeholder (the fixed prefix plus the drawn random
integer) — but a read that finds no terminator before the buffer end
re-raises the `ValueError` instead of substituting a placeholder, so only
one of the two failure cases is substituted. -/
theorem c5_name_read :
    (∀ (data : List Nat) (pos : Int) (rs : RandStream),
        findNul data pos = none →
        get_c_string data pos none rs = (.error .valueError, rs.tail)) ∧
    (∀ (data : List Nat) (pos : Int) (rs : RandStream) (e : Nat),
        findNul data pos = some e →
        decodeUtf8 (pySlice data pos e) = none →
        get_c_string data pos none rs =
          (.ok (fakeKey (rs.headD 0), (e : Int) + 1), rs.tail)) := by
  constructor
  · intro data pos rs h
    simp only [get_c_string, randDraw]
    rw [h]
  · intro data pos rs e h hdec
    simp only [get_c_string, randDraw]
    rw [h]
    simp [hdec]

/-- Witness for C5: an invalid-UTF-8 name span (a lone 0xFF byte) is
replaced by the placeholder built from the drawn random integer 42. -/
theorem c5_witness :
    get_c_string [255, 0] 0 none [42] = (.ok (fakeKey 42, 2), []) :=
  c5_name_read.2 [255, 0] 0 [42] 1 rfl rfl

/-- Counterexample to C5 as stated: with no terminator byte in the buffer
the read raises (`ValueError` re-raised) rather than yielding a
placeholder identifier. -/
theorem c5_counterexample :
    get_c_string [65] 0 none [7] = (.error .valueError, []) := rfl

/-- Claim C6 (amended): a truncated length prefix does fail the enclosing
element (the uncaught `struct.error` propagates), but an invalid-UTF-8
byte span inside a length-prefixed string (string, symbol, or code
payload) is locally replaced by the synthesized placeholder — exactly as
for names — rather than being propagated upward. -/
theorem c6_string_payload :
    (∀ (data : List Nat) (pos : Int) (rs : RandStream),
        (pySlice data pos (pos + 4)).length ≠ 4 →
        get_string data pos rs = (.error .structError, rs)) ∧
    (∀ (data : List Nat) (pos : Int) (rs : RandStream),
        (pySlice data pos (pos + 4)).length = 4 →
        decodeUtf8 (pySlice data (pos + 4) (pos + 4 + (readSize data pos - 1))) = none →
        get_string data pos rs =
          (.ok (fakeKey (rs.headD 0), pos + 4 + (readSize data pos - 1) + 1),
           rs.tail)) := by
  constructor
  · intro data pos rs h
    simp only [get_string]
    rw [if_neg h]
  · intro data pos rs h hdec
    simp only [get_string, get_c_string, randDraw, readSize] at *
    rw [if_pos h]
    simp [hdec]

/-- Witness for C6: a length-prefixed string whose 2 payload bytes are not
valid UTF-8 decodes to the placeholder built from the drawn random
integer 3, with the cursor past the declared span. -/
theorem c6_witness :
    get_string [3, 0, 0, 0, 255, 254, 0] 0 [3] = (.ok (fakeKey 3, 7), []) :=
  c6_string_payload.2 [3, 0, 0, 0, 255, 254, 0] 0 [3] rfl rfl

/-- Counterexample to C6 as stated: an invalid-UTF-8 length-prefixed string
payload succeeds with a locally substituted placeholder instead of
propagating a failure that would fail the enclosing element. -/
theorem c6_counterexample :
    get_string [2, 0, 0, 0, 255] 0 [9] = (.ok (fakeKey 9, 6), []) := rfl

/-- Claim C7 (amended): the boolean decoder reads exactly one byte and maps
0x01 to true and every other byte value — including nonzero ones — to
false; it raises only when no byte exists at the position. -/
theorem c7_boolean :
    (∀ (data : List Nat) (pos : Int) (b : Nat),
        pyIndex data pos = some b →
        get_boolean data pos = .ok (.bool (b == 1), pos + 1)) ∧
    (∀ (data : List Nat) (pos : Int),
        pyIndex data pos = none →
        get_boolean data pos = .error .indexError) := by
  constructor
  · intro data pos b h
    simp only [get_boolean]
    rw [h]
  · intro data pos h
    simp only [get_boolean]
    rw [h]

/-- Witness for C7: reading the byte 0x05 yields false and advances the
cursor by one. -/
theorem c7_witness : get_boolean [0, 5] 1 = .ok (.bool false, 2) :=
  c7_boolean.1 [0, 5] 1 5 rfl

/-- Counterexample to C7 as stated: the nonzero byte 0x02 decodes to false,
not true — only 0x01 compares equal to `"\x01"`. -/
theorem c7_counterexample :
    get_boolean [2] 0 = .ok (.bool false, 1) ∧ Value.bool false ≠ Value.bool true :=
  ⟨rfl, by simp⟩

/-- Claim C8: an element whose type tag is not in the dispatch table fails
(after its name is read) with the unknown-tag exception, and the recovery
policy truncates the enclosing document there: the concrete three-key
document whose second element carries tag 0x20 decodes to the one-key
mapping holding only the first key. -/
theorem c8_unknown_tag :
    (∀ (fuel : Nat) (data : List Nat) (pos : Int) (rs rs1 : RandStream)
        (tag : Nat) (k : PyStr) (p2 : Int),
        pyIndex data pos = some tag → knownTag tag = false →
        get_c_string data (pos + 1) none rs = (.ok (k, p2), rs1) →
        element_to_dict (fuel + 1) data pos rs = some (.error .unknownTag, rs1)) ∧
    elements_to_dict 9 bufUnknownTag 4 25 [] =
      some (.ok [([97], Value.int32 1)], []) := by
  constructor
  · intro fuel data pos rs rs1 tag k p2 htag hk hname
    simp only [element_to_dict]
    rw [htag]
    simp only []
    rw [hname]
    simp [hk]
  · rfl

/-- Witness for C8: the second element of `bufUnknownTag` (tag 0x20, name
"b") fails with the unknown-tag exception. -/
theorem c8_witness :
    element_to_dict 5 bufUnknownTag 11 [] = some (.error .unknownTag, []) :=
  c8_unknown_tag.1 4 bufUnknownTag 11 [] [] 32 [98] 14 rfl rfl rfl

/-- Claim C9: the array projection looks up keys "0", "1", "2", ... in order
and stops at the first absent key, discarding higher indices — for every
list the projection returns, position `j` of the list is exactly the
document entry at key `str(i + j)` and the key one past the end is absent
— and the concrete document with keys "0","1","2","4" projects to the
3-element sequence of the values at indices 0, 1, 2. -/
theorem c9_array_projection :
    (∀ (d : Doc) (fuel i : Nat) (l : List Value),
        array_project_go d fuel i = some l →
        ∀ j : Nat, j ≤ l.length → lookupDoc d (decStr (i + j)) = l[j]?) ∧
    get_array 12 bufArrayGap 0 [] =
      some (.ok (.arr [.int32 10, .int32 11, .int32 12], 33), []) := by
  constructor
  · intro d fuel
    induction fuel with
    | zero => intro i l h; simp [array_project_go] at h
    | succ f ih =>
      intro i l h
      simp only [array_project_go] at h
      split at h
      · rename_i heq
        simp only [Option.some.injEq] at h
        subst h
        intro j hj
        have hj0 : j = 0 := by simpa using hj
        subst hj0
        simpa using heq
      · rename_i v heq
        obtain ⟨t, ht, rfl⟩ := Option.map_eq_some'.mp h
        intro j hj
        cases j with
        | zero => simpa using heq
        | succ jj =>
          have hj' : jj ≤ t.length := by simpa using hj
          have harith : i + (jj + 1) = (i + 1) + jj := by omega
          rw [harith]
          simpa using ih (i + 1) t ht jj hj'
  · rfl

/-- Witness for C9: in a one-entry array document with key "0", the key
"1" (one past the projected length) is absent. -/
theorem c9_witness :
    lookupDoc [([48], Value.int32 5)] (decStr (0 + 1)) = [Value.int32 5][1]? :=
  c9_array_projection.1 [([48], Value.int32 5)] 3 0 [Value.int32 5] rfl 1 (by decide)

/-- Claim C10 (amended): every completed iteration of the top-level stream
loop advances the position by exactly the declared (signed) 32-bit size it
read — so the loop strictly advances whenever that size is positive — but
declared sizes can be zero or negative, and then neither the stream loop
nor the element loop need make progress: `decode_all` runs forever on
`bufLoop` (see the counterexample). -/
theorem c10_stream_step :
    ∀ (fuel : Nat) (data : List Nat) (pos : Int) (docs : List Doc)
      (rs rs' : RandStream) (d : Doc),
      pos < (data.length : Int) - 1 →
      (pySlice data pos (pos + 4)).length = 4 →
      ¬ ((data.length : Int) - pos < readSize data pos) →
      pyIndex data (pos + readSize data pos - 1) = some 0 →
      elements_to_dict_go fuel data (pos + 4) (pos + readSize data pos - 1) [] rs =
        some (.ok d, rs') →
      decode_all_go (fuel + 1) data pos docs rs =
        decode_all_go fuel data (pos + readSize data pos) docs rs' := by
  intro fuel data pos docs rs rs' d hlt hbs hsize hterm helems
  simp only [readSize] at hsize hterm helems
  simp only [decode_all_go]
  rw [if_pos hlt, if_pos hbs, if_neg hsize, hterm]
  simp only []
  rw [if_neg (by simp)]
  rw [helems]
  simp [readSize]

/-- Witness for C10: on the well-formed empty document the stream loop's
first iteration advances the position from 0 by the declared size 5. -/
theorem c10_witness :
    decode_all_go 2 bufEmptyDoc 0 [] [] = decode_all_go 1 bufEmptyDoc 5 [] [] :=
  c10_stream_step 1 bufEmptyDoc 0 [] [] [] [] (by decide) rfl (by decide) rfl rfl

/-- Counterexample to C10 as stated: `decode_all` does not terminate on the
finite buffer `bufLoop`, whose single element's declared inner size -2
makes the element loop repeat at a fixed position. -/
theorem c10_counterexample : decodeAllRunsForever bufLoop := fun fuel rs =>
  decode_go_loops fuel [] rs

end RescueBson
